import Mathlib

/-!
# Verification of the langgraph-practice chatbot

A shallow embedding of `src/chatbot.py` (and its driver `main.py`):
a conversational loop whose state is an append-only message list kept in an
in-memory, thread-id-keyed checkpointer, with a two-node graph
(chatbot node → optional tool node → chatbot node) and a line-based REPL
with the magic commands `exit` / `memory` / `clear`.

Python objects are embedded as plain Lean data; terminal prints are embedded
as an output-line type; the fallible LLM invocation is a parameter of type
`List Message → Except String (String × List ToolCall)`; the unbounded
chatbot→tools→chatbot cycle is run on explicit fuel (the source has no
round-trip cap, so fuel only serves Lean's termination checker — every claim
quantifies over sufficient fuel).
-/

namespace Chatbot

/-- One structured tool-call request emitted by the model inside an
assistant message: the request id, the tool name, and its arguments
(serialized). Mirrors the `tool_calls` entries carried by an AI message. -/
structure ToolCall where
  id : String
  name : String
  args : String
deriving DecidableEq

/-- A conversation message as the source observes it: `type` is the
message class tag (`"human"`, `"ai"`, `"tool"`), `content` the text,
`tool_calls` the tool-call requests (nonempty only on AI messages), and
`tool_call_id` the back-link of a tool-result message to its request. -/
structure Message where
  type : String
  content : String
  tool_calls : List ToolCall
  tool_call_id : Option String
deriving DecidableEq

/-- The dict `{"role": "user", "content": user_input}` that
`stream_graph_updates` feeds into the graph (chatbot.py line 104). -/
def userMessage (s : String) : Message :=
  { type := "human", content := s, tool_calls := [], tool_call_id := none }

/-- The model client: given the full ordered message history it either
returns one assistant reply (content, tool-call requests) or fails
(network / auth / model error), which in Python raises out of
`llm_with_tools.invoke`. -/
abbrev LLM := List Message → Except String (String × List ToolCall)

/-- A registered tool's invocation function: tool name and serialized
arguments to result text. -/
abbrev ToolInvoke := String → String → String

/-- Wrap a successful model reply as the AI message the `chatbot` node
appends (chatbot.py line 34). -/
def mkAI (r : String × List ToolCall) : Message :=
  { type := "ai", content := r.1, tool_calls := r.2, tool_call_id := none }

/-- The `chatbot` graph node (chatbot.py lines 32-34): invoke the
tool-bound model on the whole history and return its single reply. -/
def chatbot (llm : LLM) (messages : List Message) : Except String Message :=
  match llm messages with
  | Except.ok r => Except.ok (mkAI r)
  | Except.error e => Except.error e

/-- Modelled from the spec: `tools_condition`, the imported routing
predicate (chatbot.py line 44), is not in this repository; per spec §4.2 it
is a pure function over the latest message that routes to the tool node
exactly when that message carries one or more tool-call requests. -/
def tools_condition (messages : List Message) : Bool :=
  match messages.getLast? with
  | some m => !m.tool_calls.isEmpty
  | none => false

/-- Modelled from the spec: `ToolNode` (chatbot.py line 40) is an imported
prebuilt; per spec §4.3 it executes each tool-call request of the latest
assistant message in request order and appends one tool-result message per
request, linked via `tool_call_id`. -/
def toolNode (invoke : ToolInvoke) (m : Message) : List Message :=
  m.tool_calls.map fun tc =>
    { type := "tool", content := invoke tc.name tc.args,
      tool_calls := [], tool_call_id := some tc.id }

/-- One graph run from an initial message list (the checkpointed history
plus the new user message): chatbot node, then — while `tools_condition`
routes to the tool node — tool results and back to the chatbot node.
Returns the final message list together with the `stream_mode="values"`
event snapshots produced after each superstep (the snapshot of the input
step itself is added by the caller).  Fuel bounds the tool round-trips
only so that the definition terminates; the source has no such cap. -/
def graphLoop (llm : LLM) (invoke : ToolInvoke) :
    Nat → List Message → Except String (List Message × List (List Message))
  | 0, msgs => Except.ok (msgs, [])
  | n + 1, msgs =>
    match chatbot llm msgs with
    | Except.error e => Except.error e
    | Except.ok ai =>
      let msgs2 := msgs ++ [ai]
      if tools_condition msgs2 then
        match graphLoop llm invoke n (msgs2 ++ toolNode invoke ai) with
        | Except.error e => Except.error e
        | Except.ok (fin, evs) =>
          Except.ok (fin, msgs2 :: (msgs2 ++ toolNode invoke ai) :: evs)
      else
        Except.ok (msgs2, [msgs2])

/-- The process-local session store keyed (in the source) by
`thread_id = "main_thread"`; only that one key is ever used, so the store is
the optional message history of that session. `none` is the no-session
state: nothing has been checkpointed (or the session was cleared). -/
abbrev Store := Option (List Message)

/-- The message history the graph starts a turn from: the checkpointed
history, or empty when no session exists yet. -/
def storeMessages (st : Store) : List Message := st.getD []

/-- What `graph.get_state(config)` hands to `show_memory_state`: a state
snapshot whose `values` dict is empty (falsy) exactly when nothing has been
checkpointed for the thread. `values = some msgs` embeds the non-empty dict
`{"messages": msgs}`. -/
structure StateSnapshot where
  values : Option (List Message)
deriving DecidableEq

/-- `graph.get_state(config)` for the single session. -/
def get_state (st : Store) : StateSnapshot := ⟨st⟩

/-- Modelled from the spec: `graph.clear_state(config)` (chatbot.py
line 142) is a call into the orchestration library, not repository code;
per the spec, `clear` "resets the session to no-session". -/
def clear_state (_st : Store) : Store := none

/-- One line printed to the terminal by the parts of the program the claims
talk about. -/
inductive OutLine
  | assistant (content : String)
  | usingTool
  | toolInput (args : String)
  | toolOutput (result : String)
  | memoryNoMessages
  | memoryHistory (total : Nat) (lines : List String)
  | memoryCleared
  | exiting
  | error (e : String)
  | vizSaved
  | vizFailed (e : String)
  | vizHint (s : String)
deriving DecidableEq

/-- `format_message` (chatbot.py lines 81-83): label `"human"` messages
`User` and every other message `Assistant`. -/
def format_message (m : Message) : String :=
  let role := if m.type = "human" then "User" else "Assistant"
  role ++ ": " ++ m.content

/-- `show_memory_state` (chatbot.py lines 85-96): the no-messages notice
when the snapshot's values dict is falsy, otherwise the total and the
formatted history. -/
def show_memory_state (current_state : StateSnapshot) : List OutLine :=
  match current_state.values with
  | none => [OutLine.memoryNoMessages]
  | some messages =>
    [OutLine.memoryHistory messages.length (messages.map format_message)]

/-- The per-item body of the event loop in `stream_graph_updates`
(chatbot.py lines 109-122). Under `stream_mode="values"` every streamed
event is the full state dict, so each item's value is the message list
under the state key `"messages"`; the `node_name == "tools"` branch keeps
the source's shape (it would print the `[Using Tool: ...]` header and then
iterate `node_output.get("tool_calls", [])`, a key a state or node-output
dict never carries, hence no input/output lines). -/
def processItem (node_name : String) (node_output : List Message) :
    List OutLine :=
  if node_name = "messages" then
    if 0 < node_output.length then
      match node_output.getLast? with
      | some last_message =>
        if last_message.type = "ai" then [OutLine.assistant last_message.content]
        else []
      | none => []
    else []
  else if node_name = "tools" then
    [OutLine.usingTool]
  else []

/-- A `stream_mode="values"` event has exactly one item: the state key
`"messages"` mapped to the full message list after the superstep. -/
def handleValuesEvent (snapshot : List Message) : List OutLine :=
  processItem "messages" snapshot

/-- `stream_graph_updates` (chatbot.py lines 98-122): run the graph on the
checkpointed history plus the new user message and print each streamed
snapshot's output. Modelled from the spec: the checkpointer commits the
turn's messages only when the turn completes — a model failure "aborts the
current turn without mutating stored state" (spec §4.1), so the store is
written only on success. -/
def stream_graph_updates (llm : LLM) (invoke : ToolInvoke) (fuel : Nat)
    (st : Store) (user_input : String) :
    Except String (Store × List OutLine) :=
  let start := storeMessages st ++ [userMessage user_input]
  match graphLoop llm invoke fuel start with
  | Except.error e => Except.error e
  | Except.ok (fin, evs) =>
    Except.ok (some fin, ((start :: evs).map handleValuesEvent).flatten)

/-- One iteration of the REPL consumes one of these: a line returned by
`input()`, or a `KeyboardInterrupt` raised inside the `try` block. -/
inductive Event
  | line (s : String)
  | interrupt
deriving DecidableEq

/-- The result of one REPL iteration: continue with a new store, or leave
the `while` loop (`break`), each having printed some lines. -/
inductive StepResult
  | next (st : Store) (out : List OutLine)
  | stop (st : Store) (out : List OutLine)
deriving DecidableEq

/-- Python's `str.lower()` on the command strings at hand, embedded
character by character (ASCII case folding, which is all the compared
literals exercise). -/
def lower (s : String) : String := String.mk (s.data.map Char.toLower)

/-- One iteration of the `while True` loop in `run_chatbot` (chatbot.py
lines 131-151): the `exit` / `memory` / `clear` commands (lower-cased
input), a conversational turn via `stream_graph_updates`, the
`KeyboardInterrupt` handler, and the catch-all `except Exception` handler
that prints the error and breaks. -/
def loopStep (llm : LLM) (invoke : ToolInvoke) (fuel : Nat) (st : Store) :
    Event → StepResult
  | Event.interrupt => StepResult.stop st [OutLine.exiting]
  | Event.line user_input =>
    if lower user_input = "exit" then
      StepResult.stop st [OutLine.exiting]
    else if lower user_input = "memory" then
      StepResult.next st (show_memory_state (get_state st))
    else if lower user_input = "clear" then
      StepResult.next (clear_state st) [OutLine.memoryCleared]
    else
      match stream_graph_updates llm invoke fuel st user_input with
      | Except.ok p => StepResult.next p.1 p.2
      | Except.error e => StepResult.stop st [OutLine.error e]

/-- The whole interactive loop over a queue of input events: iterate
`loopStep` until it breaks (or stdin's events run out), collecting the
printed lines and the final store. -/
def runLoop (llm : LLM) (invoke : ToolInvoke) (fuel : Nat) :
    List Event → Store → Store × List OutLine
  | [], st => (st, [])
  | ev :: rest, st =>
    match loopStep llm invoke fuel st ev with
    | StepResult.next st2 out =>
      match runLoop llm invoke fuel rest st2 with
      | (st3, out2) => (st3, out ++ out2)
    | StepResult.stop st2 out => (st2, out)

/-- The declarative graph topology accumulated by the `StateGraph` builder
calls (chatbot.py lines 38-47). -/
structure StateGraphBuilder where
  nodes : List String
  edges : List (String × String)
  conditional_edge_sources : List String
  entry_point : Option String
deriving DecidableEq

/-- `graph_builder.add_node(name, fn)`. -/
def add_node (b : StateGraphBuilder) (n : String) : StateGraphBuilder :=
  { b with nodes := b.nodes ++ [n] }

/-- `graph_builder.add_edge(src, dst)`. -/
def add_edge (b : StateGraphBuilder) (s t : String) : StateGraphBuilder :=
  { b with edges := b.edges ++ [(s, t)] }

/-- `graph_builder.add_conditional_edges(src, tools_condition)`. -/
def add_conditional_edges (b : StateGraphBuilder) (s : String) :
    StateGraphBuilder :=
  { b with conditional_edge_sources := b.conditional_edge_sources ++ [s] }

/-- `graph_builder.set_entry_point(name)`. -/
def set_entry_point (b : StateGraphBuilder) (n : String) : StateGraphBuilder :=
  { b with entry_point := some n }

/-- `graph_builder.compile(checkpointer=memory)`: the compiled graph is the
topology plus the fact that a `MemorySaver` checkpointer is attached. -/
structure CompiledGraph where
  builder : StateGraphBuilder
  checkpointed : Bool
deriving DecidableEq

/-- `create_chatbot_graph` (chatbot.py lines 15-78), from the graph-building
calls onward: build the two-node topology, compile it with the in-memory
checkpointer, then attempt the best-effort graphviz rendering inside
`try/except` — whose outcome is the `viz` parameter, `Except.error e`
embedding any raised exception `e` (e.g. the graphviz import failing) —
and in every case return the compiled graph. -/
def create_chatbot_graph (viz : Except String Unit) :
    CompiledGraph × List OutLine :=
  let graph_builder : StateGraphBuilder := ⟨[], [], [], none⟩
  let graph_builder := add_node graph_builder "chatbot"
  let graph_builder := add_node graph_builder "tools"
  let graph_builder := add_conditional_edges graph_builder "chatbot"
  let graph_builder := add_edge graph_builder "tools" "chatbot"
  let graph_builder := set_entry_point graph_builder "chatbot"
  let graph : CompiledGraph := ⟨graph_builder, true⟩
  match viz with
  | Except.ok _ => (graph, [OutLine.vizSaved])
  | Except.error e =>
    (graph,
     [OutLine.vizFailed e,
      OutLine.vizHint "To enable graph visualization, install graphviz:",
      OutLine.vizHint "  pip install graphviz",
      OutLine.vizHint "  sudo apt-get install graphviz"])

/-- Whether a `StepResult` left the `while` loop (`break`). -/
def StepResult.isStop : StepResult → Bool
  | StepResult.stop _ _ => true
  | StepResult.next _ _ => false

/-- The session store after the iteration, whichever way it ended. -/
def StepResult.stateAfter : StepResult → Store
  | StepResult.stop st _ => st
  | StepResult.next st _ => st

/-- A concrete model stub that always answers "hi" with no tool calls. -/
def llmHi : LLM := fun _ => Except.ok ("hi", [])

/-- A concrete model stub that always fails (e.g. a network error). -/
def llmBoom : LLM := fun _ => Except.error "boom"

/-- A concrete tool stub. -/
def invoke0 : ToolInvoke := fun _ _ => "tool result"

/-- Two concrete tool-call requests. -/
def tcA : ToolCall := ⟨"id_a", "tavily_search", "query=a"⟩

/-- See `tcA`. -/
def tcB : ToolCall := ⟨"id_b", "tavily_search", "query=b"⟩

/-- A concrete model stub that always requests the two tool calls. -/
def llmTools : LLM := fun _ => Except.ok ("", [tcA, tcB])

/-- The tool-call request of the C6 scenario. -/
def tcW : ToolCall := ⟨"call_1", "tavily_search", "query=weather"⟩

/-- A concrete model stub for a one-tool-round turn: on the bare user
message it requests `tcW`; once the tool result is in the history it
answers with plain content. -/
def llmWeather : LLM := fun ms =>
  if ms.length ≤ 1 then Except.ok ("", [tcW])
  else Except.ok ("It is sunny.", [])

/-- The tool-result message `ToolNode` appends in the C6 scenario. -/
def toolMsgW : Message := ⟨"tool", "tool result", [], some "call_1"⟩

/-- Whether a printed line is a plain assistant-content line. -/
def OutLine.isAssistant : OutLine → Bool
  | OutLine.assistant _ => true
  | _ => false

end Chatbot

namespace Chatbot

/-- Claim C1: after the `clear` command is processed the stored session
state is the no-session (empty) state, an immediately following `memory`
command prints the no-messages notice, and the loop continues from the
cleared store. -/
theorem c1_clear_then_memory (llm : LLM) (invoke : ToolInvoke) (fuel : Nat)
    (st : Store) (rest : List Event) :
    loopStep llm invoke fuel st (Event.line "clear")
      = StepResult.next none [OutLine.memoryCleared]
    ∧ show_memory_state (get_state none) = [OutLine.memoryNoMessages]
    ∧ runLoop llm invoke fuel
        (Event.line "clear" :: Event.line "memory" :: rest) st
      = ((runLoop llm invoke fuel rest none).1,
         OutLine.memoryCleared :: OutLine.memoryNoMessages ::
           (runLoop llm invoke fuel rest none).2) := by
  refine ⟨rfl, rfl, ?_⟩
  have h1 : loopStep llm invoke fuel st (Event.line "clear")
      = StepResult.next none [OutLine.memoryCleared] := rfl
  have h2 : loopStep llm invoke fuel none (Event.line "memory")
      = StepResult.next none [OutLine.memoryNoMessages] := rfl
  simp only [runLoop, h1, h2]
  cases hr : runLoop llm invoke fuel rest none with
  | mk st3 out2 => simp

/-- Claim C4 counterexample: the claim says `quit` terminates the loop with
the session unchanged, but on the code `quit` is not a recognized command:
from the store holding an empty history, the iteration does not stop and
the store afterwards holds a freshly appended user/assistant pair. -/
theorem c4_quit_counterexample :
    (loopStep llmHi invoke0 1 (some []) (Event.line "quit")).isStop = false
    ∧ (loopStep llmHi invoke0 1 (some []) (Event.line "quit")).stateAfter
      = some [userMessage "quit", mkAI ("hi", [])] := by decide

/-- Claim C4 (amended): entering `exit` (matched case-insensitively)
terminates the interactive loop and leaves the stored session state
unchanged; `quit` is not a recognized command. -/
theorem c4_exit_terminates_unchanged (llm : LLM) (invoke : ToolInvoke)
    (fuel : Nat) (st : Store) (s : String) (h : lower s = "exit") :
    loopStep llm invoke fuel st (Event.line s)
      = StepResult.stop st [OutLine.exiting] := by
  simp [loopStep, h]

/-- Witness for the amended C4 at the concrete input `"EXIT"`. -/
theorem c4_exit_witness :
    lower "EXIT" = "exit"
    ∧ loopStep llmHi invoke0 1 (some []) (Event.line "EXIT")
      = StepResult.stop (some []) [OutLine.exiting] :=
  ⟨by decide,
   c4_exit_terminates_unchanged llmHi invoke0 1 (some []) "EXIT" (by decide)⟩

/-- Claim C2: a completed interactive turn whose model call succeeds
without emitting a tool call appends exactly two messages to the stored
history — first the user message, then the assistant message — and prints
that assistant reply. Quantifying over the store covers every sequence of
such turns. -/
theorem c2_no_tool_turn_appends_two (llm : LLM) (invoke : ToolInvoke)
    (n : Nat) (st : Store) (s c : String)
    (h1 : lower s ≠ "exit") (h2 : lower s ≠ "memory")
    (h3 : lower s ≠ "clear")
    (hl : llm (storeMessages st ++ [userMessage s]) = Except.ok (c, [])) :
    loopStep llm invoke (n + 1) st (Event.line s)
      = StepResult.next
          (some (storeMessages st ++ [userMessage s, mkAI (c, [])]))
          [OutLine.assistant c] := by
  have ht : tools_condition
      ((storeMessages st ++ [userMessage s]) ++ [mkAI (c, [])]) = false := by
    simp [tools_condition, List.getLast?_concat, mkAI]
  simp only [loopStep, if_neg h1, if_neg h2, if_neg h3,
    stream_graph_updates, graphLoop, chatbot, hl, ht]
  simp [handleValuesEvent, processItem, List.getLast?_concat, userMessage,
    mkAI]

/-- Witness for C2: a single turn from an empty session with a stub model
that answers "hi" with no tool calls. -/
theorem c2_witness :
    loopStep llmHi invoke0 1 none (Event.line "hello")
      = StepResult.next (some [userMessage "hello", mkAI ("hi", [])])
          [OutLine.assistant "hi"] :=
  c2_no_tool_turn_appends_two llmHi invoke0 0 none "hello" "hi"
    (by decide) (by decide) (by decide) rfl

/-- Claim C3: when the model's reply carries the tool-call requests `tcs`
(nonempty), the graph appends exactly `tcs.length` tool-result messages
right after that assistant message and before the next chatbot step — in
request order, each carrying the `tool_call_id` of its request — and only
then re-enters the chatbot node. -/
theorem c3_tool_results_match_requests (llm : LLM) (invoke : ToolInvoke)
    (n : Nat) (msgs : List Message) (c : String) (tcs : List ToolCall)
    (hl : llm msgs = Except.ok (c, tcs)) (hne : tcs ≠ []) :
    (toolNode invoke (mkAI (c, tcs))).length = tcs.length
    ∧ (toolNode invoke (mkAI (c, tcs))).map Message.tool_call_id
      = tcs.map (fun tc => some tc.id)
    ∧ (∀ x ∈ toolNode invoke (mkAI (c, tcs)), x.type = "tool")
    ∧ graphLoop llm invoke (n + 1) msgs
      = Except.map
          (fun p => (p.1,
            (msgs ++ [mkAI (c, tcs)]) ::
              (msgs ++ [mkAI (c, tcs)] ++ toolNode invoke (mkAI (c, tcs)))
              :: p.2))
          (graphLoop llm invoke n
            (msgs ++ [mkAI (c, tcs)] ++ toolNode invoke (mkAI (c, tcs)))) := by
  refine ⟨by simp [toolNode, mkAI], ?_, ?_, ?_⟩
  · simp [toolNode, mkAI, List.map_map, Function.comp]
  · intro x hx
    simp only [toolNode, List.mem_map] at hx
    obtain ⟨tc, _, rfl⟩ := hx
    rfl
  · have ht : tools_condition (msgs ++ [mkAI (c, tcs)]) = true := by
      simp [tools_condition, List.getLast?_concat, mkAI,
        List.isEmpty_iff, hne]
    simp only [graphLoop, chatbot, hl, ht]
    cases hg : graphLoop llm invoke n
        (msgs ++ [mkAI (c, tcs)] ++ toolNode invoke (mkAI (c, tcs))) with
    | error e => simp [hg, Except.map]
    | ok p => cases p with | mk fin evs => simp [hg, Except.map]

/-- Witness for C3 at the stub model requesting two tool calls from an
empty history. -/
theorem c3_witness :
    (toolNode invoke0 (mkAI ("", [tcA, tcB]))).length = [tcA, tcB].length
    ∧ (toolNode invoke0 (mkAI ("", [tcA, tcB]))).map Message.tool_call_id
      = [tcA, tcB].map (fun tc => some tc.id) := by
  have h := c3_tool_results_match_requests llmTools invoke0 0 [] ""
    [tcA, tcB] rfl (by decide)
  exact ⟨h.1, h.2.1⟩

/-- Claim C6 (supporting theorem for the code bug): a complete turn in
which a tool is invoked — the assistant message requests `tcW` and the
tool-result message lands in the stored history — prints only plain
assistant-content lines: the tool name, its arguments and its result never
reach the terminal, because under `stream_mode="values"` every streamed
event is keyed by the state key `"messages"` and the `node_name == "tools"`
print branch never runs (and its body reads a `tool_calls` key the tool
node's output does not carry). -/
theorem c6_tool_prints_missing :
    stream_graph_updates llmWeather invoke0 2 none "weather"
      = Except.ok
          (some [userMessage "weather", mkAI ("", [tcW]), toolMsgW,
                 mkAI ("It is sunny.", [])],
           [OutLine.assistant "", OutLine.assistant "It is sunny."])
    ∧ (mkAI ("", [tcW])).tool_calls = [tcW]
    ∧ toolMsgW.type = "tool"
    ∧ (match stream_graph_updates llmWeather invoke0 2 none "weather" with
       | Except.ok p => p.2.all OutLine.isAssistant
       | Except.error _ => false) = true :=
  ⟨rfl, rfl, rfl, rfl⟩

/-- Claim C5: when the model invocation fails during a turn, the iteration
reports the failure as the printed `Error:` line and stops with the stored
session state exactly as it was before the turn — no user message or other
partial result is committed. -/
theorem c5_model_error_no_commit (llm : LLM) (invoke : ToolInvoke)
    (n : Nat) (st : Store) (s e : String)
    (h1 : lower s ≠ "exit") (h2 : lower s ≠ "memory")
    (h3 : lower s ≠ "clear")
    (he : llm (storeMessages st ++ [userMessage s]) = Except.error e) :
    loopStep llm invoke (n + 1) st (Event.line s)
      = StepResult.stop st [OutLine.error e] := by
  simp only [loopStep, if_neg h1, if_neg h2, if_neg h3]
  simp [stream_graph_updates, graphLoop, chatbot, he]

/-- Witness for C5: a failing stub model on a fresh session leaves the
store at `none` and prints the error. -/
theorem c5_witness :
    loopStep llmBoom invoke0 1 none (Event.line "hello")
      = StepResult.stop none [OutLine.error "boom"] :=
  c5_model_error_no_commit llmBoom invoke0 0 none "hello" "boom"
    (by decide) (by decide) (by decide) rfl

/-- Claim C7: any exception raised while processing a turn (embedded as a
failing `stream_graph_updates`) makes the loop print the error and
terminate; the remaining queued input is never read. -/
theorem c7_error_stops_loop (llm : LLM) (invoke : ToolInvoke) (fuel : Nat)
    (st : Store) (s e : String) (rest : List Event)
    (h1 : lower s ≠ "exit") (h2 : lower s ≠ "memory")
    (h3 : lower s ≠ "clear")
    (he : stream_graph_updates llm invoke fuel st s = Except.error e) :
    runLoop llm invoke fuel (Event.line s :: rest) st
      = (st, [OutLine.error e]) := by
  simp only [runLoop, loopStep, if_neg h1, if_neg h2, if_neg h3, he]

/-- Witness for C7: with a failing stub model and further queued input, the
run ends at the error with the rest of the input untouched. -/
theorem c7_witness :
    runLoop llmBoom invoke0 1 [Event.line "oops", Event.line "again"] none
      = (none, [OutLine.error "boom"]) :=
  c7_error_stops_loop llmBoom invoke0 1 none "oops" "boom"
    [Event.line "again"] (by decide) (by decide) (by decide) rfl

/-- Claim C8: when the graph-visualization step fails, graph construction
still completes with the same compiled two-node graph as on success, and
the failure shows up only as the printed non-fatal notice lines. -/
theorem c8_viz_failure_nonfatal (e : String) :
    (create_chatbot_graph (Except.error e)).1
      = (create_chatbot_graph (Except.ok ())).1
    ∧ (create_chatbot_graph (Except.error e)).1.builder.nodes
      = ["chatbot", "tools"]
    ∧ (create_chatbot_graph (Except.error e)).2
      = [OutLine.vizFailed e,
         OutLine.vizHint "To enable graph visualization, install graphviz:",
         OutLine.vizHint "  pip install graphviz",
         OutLine.vizHint "  sudo apt-get install graphviz"] :=
  ⟨rfl, rfl, rfl⟩

/-- Claim C9: `format_message` labels a message `User` exactly when its
type is `"human"`; every other type — tool-result messages included — is
labelled `Assistant`. -/
theorem c9_format_message_roles (m : Message) :
    (m.type = "human" → format_message m = "User: " ++ m.content)
    ∧ (m.type ≠ "human" → format_message m = "Assistant: " ++ m.content) := by
  constructor <;> intro h <;> simp [format_message, h]

/-- Witness for C9 at a concrete tool-result message. -/
theorem c9_witness :
    format_message
      { type := "tool", content := "result text", tool_calls := [],
        tool_call_id := some "call_1" }
    = "Assistant: " ++ "result text" :=
  (c9_format_message_roles
    { type := "tool", content := "result text", tool_calls := [],
      tool_call_id := some "call_1" }).2 (by decide)

/-- Claim C10: a keyboard interrupt at any loop iteration prints
`Exiting...` and ends the run exactly as the `exit` command does — the
remaining input is never read and no `Error:` line is printed. -/
theorem c10_interrupt_graceful (llm : LLM) (invoke : ToolInvoke) (fuel : Nat)
    (st : Store) (rest : List Event) :
    runLoop llm invoke fuel (Event.interrupt :: rest) st
      = (st, [OutLine.exiting])
    ∧ runLoop llm invoke fuel (Event.interrupt :: rest) st
      = runLoop llm invoke fuel (Event.line "exit" :: rest) st :=
  ⟨rfl, rfl⟩

end Chatbot
